import Mathlib

/-!
Verification of the parcelpy GeoParquet county splitter.

The repository contains two alternative implementations of the same engine:
`split_geoparquet_by_county.py` (DuckDB + GeoPandas hybrid with a dual-path
extractor) and `split_geoparquet_modern.py` (pure DuckDB).  Both are embedded
below.  Machine-level details that the engine treats as opaque (parquet
encodings, the spatial library) are modelled by their observable behaviour:
a row carries the value of its `COUNTY` cell, the validity bit of its
structured geometry, and the raw byte encoding the engine would hand back
when it fails to decode geometry.  Fallible external operations (file writes,
schema queries) are modelled by an explicit environment oracle, and Python
exceptions by `Except` / an explicit step-result type.
-/

namespace Parcelpy

/-- One dataset row: the `COUNTY` cell (None models SQL NULL / pandas NaN),
the validity of the structured geometry object a geometry-aware reader
produces for the row, the raw engine-side byte encoding of the geometry,
and the remaining attribute cells. -/
structure Row where
  county : Option String
  geomValid : Bool
  geomBytes : List Nat
  attrs : List String
deriving DecidableEq, Repr

/-- An on-disk parquet dataset: name, stem, byte size, ordered column list,
rows, and whether the query engine materialises this file's geometry column
as raw bytes instead of structured geometry objects (the known
engine/geometry-library encoding mismatch). -/
structure PFile where
  name : String
  stem : String
  size : Nat
  columns : List String
  rows : List Row
  engineRawGeom : Bool
deriving DecidableEq, Repr

/-- An in-memory (Geo)DataFrame: ordered columns, rows, and whether the
geometry column is currently held as raw bytes. -/
structure GDF where
  columns : List String
  rows : List Row
  geomRaw : Bool
deriving DecidableEq, Repr

/-- An output file written by the splitter: path, ordered column list,
row count. -/
structure OutFile where
  path : String
  columns : List String
  rowCount : Nat
deriving DecidableEq, Repr

/-- Environment oracle for fallible external operations: whether writing a
given output path fails, and whether the schema (DESCRIBE) query on a given
input file fails. -/
structure Env where
  writeFails : String → Bool
  describeFails : String → Bool

/-- Outcome of processing one (file, county) pair inside the per-county
loop: a recorded count, a `continue` with no entry (empty subset in the
hybrid script), or a raised-and-caught exception. -/
inductive StepResult where
  | ok (n : Nat)
  | skipped
  | raised
deriving DecidableEq, Repr

/-! ## String utilities used by the source -/

/-- Whether the first code list occurs at the head of the second. -/
def startsWithCodes : List Nat → List Nat → Bool
  | [], _ => true
  | _ :: _, [] => false
  | a :: as, b :: bs => a == b && startsWithCodes as bs

/-- Whether `needle` occurs as a contiguous run inside `hay`. -/
def hasSubstringCodes (needle : List Nat) : List Nat → Bool
  | [] => startsWithCodes needle []
  | c :: t => startsWithCodes needle (c :: t) || hasSubstringCodes needle t

/-- The code points of a string. -/
def codes (s : String) : List Nat := s.data.map Char.toNat

/-- The code points of `s.lower()` (ASCII lowering, which covers the
column names the source deals with). -/
def lowerCodes (s : String) : List Nat :=
  (codes s).map (fun n => if 65 ≤ n ∧ n ≤ 90 then n + 32 else n)

/-- The identifier-fallback predicate of `_create_geometry_and_attributes`:
`'id' in col.lower() or 'lid' in col.lower()`. -/
def hasIdLid (s : String) : Bool :=
  hasSubstringCodes (codes "id") (lowerCodes s) ||
    hasSubstringCodes (codes "lid") (lowerCodes s)

/-- `county.replace(' ', '_').replace('-', '_')`. -/
def countySafe (c : String) : String :=
  ⟨c.data.map (fun ch => if ch = ' ' ∨ ch = '-' then '_' else ch)⟩

/-- Byte-wise string comparison, as Python's `sorted` uses on `str`. -/
def charsLe : List Char → List Char → Bool
  | [], _ => true
  | _ :: _, [] => false
  | a :: as, b :: bs =>
    if a.toNat < b.toNat then true
    else if b.toNat < a.toNat then false
    else charsLe as bs

/-- String version of `charsLe`. -/
def strLe (a b : String) : Bool := charsLe a.data b.data

/-- Insertion into a sorted list. -/
def insertSorted (x : String) : List String → List String
  | [] => [x]
  | y :: ys => if strLe x y then x :: y :: ys else y :: insertSorted x ys

/-- Python's `sorted` on a collection of strings (insertion sort). -/
def sortKeys (l : List String) : List String :=
  l.foldr insertSorted []

/-! ## Row filtering (shared by both execution paths)

Both the SQL predicate `WHERE COUNTY = 'c'` (NULL compares unknown, row
excluded) and the pandas mask `gdf['COUNTY'] == c` (NaN compares unequal)
keep exactly the rows whose county cell is `some c`. -/

/-- The row subset of `f` belonging to county `c`. -/
def rowsForCounty (f : PFile) (c : String) : List Row :=
  f.rows.filter (fun r => r.county == some c)

/-- Path A: `gpd.read_parquet(file_path)` followed by the in-memory filter
`full_gdf[full_gdf['COUNTY'] == county]` — structured geometry. -/
def pathA (f : PFile) (c : String) : GDF :=
  ⟨f.columns, rowsForCounty f c, false⟩

/-- Path B: the engine-side filtered projection
`SELECT * FROM read_parquet(file) WHERE COUNTY = 'c'` converted with
`.df()` — geometry is raw bytes when the encoding mismatch applies. -/
def pathB (f : PFile) (c : String) : GDF :=
  ⟨f.columns, rowsForCounty f c, f.engineRawGeom⟩

/-- Pinned-target extraction in `split_geoparquet_by_county.py`
(lines 99-132): issue Path B, `continue` on an empty result, and when the
first geometry value is a bytes/bytearray instance fall back to Path A,
discarding the Path B frame.  The final emptiness check is the shared
`if len(gdf) == 0: continue` at line 152. -/
def extractPinned (f : PFile) (c : String) : Option GDF :=
  let df := pathB f c
  if df.rows.length = 0 then none
  else
    let gdf :=
      if f.columns.contains "geometry" then
        if df.geomRaw then pathA f c else df
      else df
    if gdf.rows.length = 0 then none else some gdf

/-- Unpinned extraction in `split_geoparquet_by_county.py` (lines 133-154):
full geometry-aware load then in-memory filter, `continue` when empty. -/
def extractUnpinned (f : PFile) (c : String) : Option GDF :=
  let gdf := pathA f c
  if gdf.rows.length = 0 then none else some gdf

/-! ## Geometry/attribute splitting (hybrid script, lines 173-208) -/

/-- Identifier column resolution of `_create_geometry_and_attributes`:
exact `PARCEL_LID` match, else the first column whose lowercased name
contains "id" or "lid" (`id_cols[0]`), else none. -/
def resolveIdColumn (cols : List String) : Option String :=
  if cols.contains "PARCEL_LID" then some "PARCEL_LID"
  else (cols.filter hasIdLid).head?

/-- The column list of the geometry output file. -/
def geometryFileColumns (cols : List String) : List String :=
  match resolveIdColumn cols with
  | some idc => [idc, "geometry"]
  | none => ["geometry"]

/-- `_create_geometry_and_attributes`: the geometry file (identifier +
geometry) and the attribute file (`gdf.drop(columns=['geometry'])`),
in write order. -/
def createGeometryAndAttributes (gdf : GDF) (countySafeStr stem : String) :
    List OutFile :=
  [⟨countySafeStr ++ "/" ++ countySafeStr ++ "_" ++ stem ++ "_geometry.parquet",
    geometryFileColumns gdf.columns, gdf.rows.length⟩,
   ⟨countySafeStr ++ "/" ++ countySafeStr ++ "_" ++ stem ++ "_attributes.parquet",
    gdf.columns.filter (fun x => x ≠ "geometry"), gdf.rows.length⟩]

/-- `_save_attributes_only`: drop geometry if present, keep the rest. -/
def saveAttributesOnly (gdf : GDF) (path : String) : OutFile :=
  ⟨path, gdf.columns.filter (fun x => x ≠ "geometry"), gdf.rows.length⟩

/-- Sequential writes of the produced files; a failure raises, carrying the
files already written before the failing write. -/
def writeAll (env : Env) : List OutFile → Except (List OutFile) (List OutFile)
  | [] => Except.ok []
  | o :: rest =>
    if env.writeFails o.path then Except.error []
    else
      match writeAll env rest with
      | Except.ok w => Except.ok (o :: w)
      | Except.error w => Except.error (o :: w)

/-- The body of the per-county loop of the hybrid script's
`split_file_by_county` (the `try` block, lines 97-165): extract, split or
save attributes-only, write; an empty subset `continue`s, an exception is
reported as `raised` and handled by the `except` clause at lines 167-169. -/
def countyStepByCounty (env : Env) (f : PFile) (isMain pinned : Bool)
    (c : String) : StepResult × List OutFile :=
  match (if pinned then extractPinned f c else extractUnpinned f c) with
  | none => (StepResult.skipped, [])
  | some gdf =>
    let outs :=
      if isMain && gdf.columns.contains "geometry" then
        createGeometryAndAttributes gdf (countySafe c) f.stem
      else
        [saveAttributesOnly gdf
          (countySafe c ++ "/" ++ countySafe c ++ "_" ++ f.stem ++
            "_attributes.parquet")]
    match writeAll env outs with
    | Except.ok written => (StepResult.ok gdf.rows.length, written)
    | Except.error written => (StepResult.raised, written)

/-- The per-county loop shared by both scripts: an `ok n` step records
`results[county] = n`, a `skipped` step records nothing (`continue`), a
`raised` step is caught and records `results[county] = 0`; the loop always
proceeds to the next county. -/
def runCounties (body : String → StepResult × List OutFile) :
    List String → List (String × Nat) × List OutFile
  | [] => ([], [])
  | c :: rest =>
    let st := (body c).1
    let w := (body c).2
    let acc := runCounties body rest
    match st with
    | StepResult.ok n => ((c, n) :: acc.1, w ++ acc.2)
    | StepResult.skipped => (acc.1, w ++ acc.2)
    | StepResult.raised => ((c, 0) :: acc.1, w ++ acc.2)

/-- Python truthiness of `self.target_county`: `None` and `""` are falsy. -/
def targetTruthy : Option String → Bool
  | none => false
  | some t => !(t == "")

/-- `split_file_by_county` of the hybrid script: choose
`{target} if self.target_county else counties`, iterate in sorted order. -/
def splitFileByCounty (env : Env) (f : PFile) (counties : List String)
    (isMain : Bool) (target : Option String) :
    List (String × Nat) × List OutFile :=
  let toProcess := if targetTruthy target then [target.getD ""] else counties
  runCounties (countyStepByCounty env f isMain (targetTruthy target))
    (sortKeys toProcess)

/-! ## Discovery, validation, orchestration -/

/-- `discover_counties`: `SELECT DISTINCT COUNTY ... WHERE COUNTY IS NOT
NULL`, collected into a set (modelled as a duplicate-free list; the set has
no order guarantee). -/
def discoverCounties (f : PFile) : List String :=
  (f.rows.filterMap Row.county).dedup

/-- `validate_target_county`: fails only when the target is truthy and not
among the available counties. -/
def validateTargetCounty (target : Option String) (available : List String) :
    Bool :=
  if targetTruthy target && !(available.contains (target.getD "")) then false
  else true

/-- Python's `max(files, key=...)`: keeps the first element on ties. -/
def pythonMaxBy (key : PFile → Nat) : PFile → List PFile → PFile
  | cur, [] => cur
  | cur, x :: xs => pythonMaxBy key (if key x > key cur then x else cur) xs

/-- Observable outcome of one run of `process_all_files`: the discovered
key set (if discovery ran), the available set reported on validation
failure, the per-file results mappings, all output files, and whether the
summary report was written. -/
structure RunOutcome where
  discovered : Option (List String)
  reportedAvailable : Option (List String)
  fileResults : List (String × List (String × Nat))
  outputs : List OutFile
  summaryWritten : Bool
deriving DecidableEq, Repr

/-- `process_all_files` of the hybrid script (lines 239-280): abort on no
files, discover counties on the largest file, abort on an empty set, abort
on validation failure (reporting the sorted available set), otherwise split
every file and write the summary. -/
def processAllFiles (env : Env) (target : Option String)
    (files : List PFile) : RunOutcome :=
  match files with
  | [] => ⟨none, none, [], [], false⟩
  | f₀ :: rest =>
    let mainFile := pythonMaxBy PFile.size f₀ rest
    let counties := discoverCounties mainFile
    if counties.isEmpty then ⟨some counties, none, [], [], false⟩
    else if !validateTargetCounty target counties then
      ⟨some counties, some (sortKeys counties), [], [], false⟩
    else
      let perFile := (f₀ :: rest).map (fun f =>
        (f.name, splitFileByCounty env f counties (decide (f = mainFile))
          target))
      ⟨some counties, none,
       perFile.map (fun x => (x.1, x.2.1)),
       (perFile.map (fun x => x.2.2)).flatten,
       true⟩

/-! ## Pure-DuckDB script (`split_geoparquet_modern.py`) -/

/-- The schema query `DESCRIBE SELECT * FROM read_parquet(file)`. -/
def describeQuery (env : Env) (f : PFile) : Except Unit (List String) :=
  if env.describeFails f.name then Except.error () else Except.ok f.columns

/-- `_check_geometry_column` (lines 140-151): the schema query filtered to
`column_name = 'geometry'`, `fetchone() is not None`; a bare `except`
returns `False`. -/
def checkGeometryColumn (env : Env) (f : PFile) : Bool :=
  match describeQuery env f with
  | Except.error _ => false
  | Except.ok cols => cols.contains "geometry"

/-- `_create_geometry_and_attributes_native` (lines 153-210): a `COPY`
selecting the hardcoded `PARCEL_LID, geometry` pair (a binder error —
hence an exception — when either column is absent), then the attribute
`COPY` over the described columns minus geometry, then the count query. -/
def createGeometryAndAttributesNative (env : Env) (f : PFile) (c : String) :
    StepResult × List OutFile :=
  let gpath := countySafe c ++ "/" ++ countySafe c ++ "_" ++ f.stem ++
    "_geometry.parquet"
  let apath := countySafe c ++ "/" ++ countySafe c ++ "_" ++ f.stem ++
    "_attributes.parquet"
  if !(f.columns.contains "PARCEL_LID" && f.columns.contains "geometry") then
    (StepResult.raised, [])
  else if env.writeFails gpath then (StepResult.raised, [])
  else
    let geomOut : OutFile :=
      ⟨gpath, ["PARCEL_LID", "geometry"], (rowsForCounty f c).length⟩
    match describeQuery env f with
    | Except.error _ => (StepResult.raised, [geomOut])
    | Except.ok cols =>
      if env.writeFails apath then (StepResult.raised, [geomOut])
      else
        (StepResult.ok (rowsForCounty f c).length,
         [geomOut,
          ⟨apath, cols.filter (fun x => x ≠ "geometry"),
           (rowsForCounty f c).length⟩])

/-- `_save_attributes_only_native` (lines 212-251): the described columns
minus geometry, one `COPY`, then the count query.  No emptiness check —
the file is written even for zero matching rows. -/
def saveAttributesOnlyNative (env : Env) (f : PFile) (c : String) :
    StepResult × List OutFile :=
  let apath := countySafe c ++ "/" ++ countySafe c ++ "_" ++ f.stem ++
    "_attributes.parquet"
  match describeQuery env f with
  | Except.error _ => (StepResult.raised, [])
  | Except.ok cols =>
    if env.writeFails apath then (StepResult.raised, [])
    else
      (StepResult.ok (rowsForCounty f c).length,
       [⟨apath, cols.filter (fun x => x ≠ "geometry"),
         (rowsForCounty f c).length⟩])

/-- The body of the per-county loop of the modern script's
`split_file_by_county` (lines 116-132). -/
def countyStepModern (env : Env) (f : PFile) (isMain : Bool) (c : String) :
    StepResult × List OutFile :=
  if isMain && checkGeometryColumn env f then
    createGeometryAndAttributesNative env f c
  else
    saveAttributesOnlyNative env f c

/-! ## Shared helper lemmas -/

theorem contains_iff_mem' {l : List String} {a : String} :
    l.contains a = true ↔ a ∈ l :=
  List.elem_iff

theorem rowsForCounty_pathA (f : PFile) (c : String) :
    (pathA f c).rows = rowsForCounty f c := rfl

theorem rowsForCounty_pathB (f : PFile) (c : String) :
    (pathB f c).rows = rowsForCounty f c := rfl

/-- When no write fails, sequential writing succeeds and writes every file. -/
theorem writeAll_ok (env : Env) (h : ∀ p, env.writeFails p = false) :
    ∀ l : List OutFile, writeAll env l = Except.ok l := by
  intro l
  induction l with
  | nil => rfl
  | cons o rest ih => simp [writeAll, h, ih]

/-! ## C1 -/

/-- C1: in the pinned-target extractor, when the engine-side Path B frame
has a geometry column whose first value is a raw byte encoding (the frame
is non-empty and marked raw), the extractor returns exactly the Path A
result — a full geometry-aware load filtered in memory on the original
file, with structured (non-raw) geometry — so row count and geometry
validity coincide with what Path A alone would produce. -/
theorem c1_pathB_raw_falls_back_to_pathA (f : PFile) (c : String)
    (hg : f.columns.contains "geometry" = true)
    (hraw : (pathB f c).geomRaw = true)
    (hne : (pathB f c).rows ≠ []) :
    extractPinned f c = some (pathA f c) ∧ (pathA f c).geomRaw = false := by
  have hlen : (pathB f c).rows.length ≠ 0 := by
    simpa [List.length_eq_zero] using hne
  have hlenA : (pathA f c).rows.length ≠ 0 := hlen
  refine ⟨?_, rfl⟩
  simp only [extractPinned, hlen, if_neg hlen, hg, hraw]
  simp [rowsForCounty_pathA, rowsForCounty_pathB] at hlenA ⊢
  simp [hlenA]

/-- Concrete witness for C1. -/
def wFileRaw : PFile :=
  ⟨"A.parquet", "A", 10, ["COUNTY", "PARCEL_LID", "geometry"],
   [⟨some "Clackamas", true, [1, 2], ["p1"]⟩], true⟩

theorem c1_pathB_raw_falls_back_to_pathA_witness :
    extractPinned wFileRaw "Clackamas" = some (pathA wFileRaw "Clackamas") ∧
      (pathA wFileRaw "Clackamas").geomRaw = false :=
  c1_pathB_raw_falls_back_to_pathA wFileRaw "Clackamas" (by decide) (by decide)
    (by decide)

/-! ## Concrete data for witnesses and counterexamples -/

/-- Environment in which no external operation fails. -/
def envOK : Env := ⟨fun _ => false, fun _ => false⟩

/-- Environment in which every file write fails. -/
def envBad : Env := ⟨fun _ => true, fun _ => false⟩

/-- Environment in which every schema query fails. -/
def envD : Env := ⟨fun _ => false, fun _ => true⟩

/-- A main-style file: `COUNTY`, `PARCEL_LID` and geometry, one
Clackamas row. -/
def wFileMain : PFile :=
  ⟨"A.parquet", "A", 100, ["COUNTY", "PARCEL_LID", "geometry"],
   [⟨some "Clackamas", true, [7], ["p1"]⟩], false⟩

/-- A geometry-less file whose only row has county `X`. -/
def wFileX : PFile :=
  ⟨"A.parquet", "A", 2, ["COUNTY"], [⟨some "X", true, [], []⟩], false⟩

/-- A smaller auxiliary file whose only row has county `Y` — a key that the
main file `wFileX` does not contain. -/
def wFileAux : PFile :=
  ⟨"B.parquet", "B", 1, ["COUNTY"], [⟨some "Y", true, [], []⟩], false⟩

/-- A geometry-bearing file with an id-like column but no `PARCEL_LID`. -/
def wFileNoLid : PFile :=
  ⟨"B.parquet", "B", 50, ["COUNTY", "TAXID", "geometry"],
   [⟨some "Clackamas", true, [], ["x"]⟩], false⟩

/-! ## C2 -/

/-- C2 counterexample: a (file, key) pair with an empty filtered subset for
which the pure-DuckDB implementation still writes two output files (its
`COPY` statements run unconditionally), refuting "no output files are
written for that pair". -/
theorem c2_counterexample :
    rowsForCounty wFileMain "Washington" = [] ∧
      (countyStepModern envOK wFileMain true "Washington").2.length = 2 := by
  decide

/-- C2 (amended): an empty filtered subset never fails.  In the hybrid
script the pair is skipped — no results entry (hence a 0 contribution to
the file total) and no output files.  In the pure-DuckDB script the pair is
recorded with count 0, but output files are still written. -/
theorem c2_empty_subset_no_failure (env : Env) (f : PFile)
    (isMain pinned : Bool) (c : String)
    (hempty : rowsForCounty f c = []) :
    countyStepByCounty env f isMain pinned c = (StepResult.skipped, []) ∧
    (∀ rest,
      (runCounties (countyStepByCounty env f isMain pinned) (c :: rest)).1
        = (runCounties (countyStepByCounty env f isMain pinned) rest).1) ∧
    ((∀ p, env.writeFails p = false) → env.describeFails f.name = false →
      (f.columns.contains "geometry" = true →
        f.columns.contains "PARCEL_LID" = true) →
      (countyStepModern env f isMain c).1 = StepResult.ok 0 ∧
        (countyStepModern env f isMain c).2 ≠ []) := by
  have hstep : countyStepByCounty env f isMain pinned c
      = (StepResult.skipped, []) := by
    cases pinned <;>
      simp [countyStepByCounty, extractPinned, extractUnpinned, pathA, pathB,
        hempty]
  refine ⟨hstep, ?_, ?_⟩
  · intro rest
    simp [runCounties, hstep]
  · intro hw hd hpar
    have hchk : checkGeometryColumn env f = f.columns.contains "geometry" := by
      simp [checkGeometryColumn, describeQuery, hd]
    by_cases hb : (isMain && checkGeometryColumn env f) = true
    · have hb2 := hb
      rw [Bool.and_eq_true] at hb2
      have hgeom : "geometry" ∈ f.columns := by
        have hg := hb2.2
        rw [hchk] at hg
        exact contains_iff_mem'.1 hg
      have hpl : "PARCEL_LID" ∈ f.columns :=
        contains_iff_mem'.1 (hpar (contains_iff_mem'.2 hgeom))
      simp [countyStepModern, hb, createGeometryAndAttributesNative, hpl,
        hgeom, hw, describeQuery, hd, hempty]
    · simp [countyStepModern, hb, saveAttributesOnlyNative, describeQuery,
        hd, hw, hempty]

/-- Concrete witness for the amended C2. -/
theorem c2_empty_subset_no_failure_witness :
    countyStepByCounty envOK wFileMain true false "Washington"
        = (StepResult.skipped, []) ∧
      (countyStepModern envOK wFileMain true "Washington").1
        = StepResult.ok 0 := by
  have h := c2_empty_subset_no_failure envOK wFileMain true false "Washington"
    (by decide)
  exact ⟨h.1, (h.2.2 (fun _ => rfl) rfl (fun _ => by decide)).1⟩

/-! ## C3 -/

/-- C3 counterexample: requesting partition key `""` — a key absent from
the discovered set — does not abort the run: Python truthiness makes
`validate_target_county` pass and `split_file_by_county` fall back to
processing all counties, so outputs and the summary are produced. -/
theorem c3_counterexample :
    ("" ∈ discoverCounties wFileX → False) ∧
      (processAllFiles envOK (some "") [wFileX]).summaryWritten = true ∧
      (processAllFiles envOK (some "") [wFileX]).outputs ≠ [] := by
  decide

/-- C3 (amended): for every run whose requested partition key is non-empty
and not in the discovered set, the run aborts before any file is processed:
no per-file results, no output files, no summary; and whenever at least one
key was discovered, validation reports the full (sorted) available set. -/
theorem c3_invalid_target_aborts_run (env : Env) (t : String) (f₀ : PFile)
    (rest : List PFile) (ht : t ≠ "")
    (hmem : t ∉ discoverCounties (pythonMaxBy PFile.size f₀ rest)) :
    (processAllFiles env (some t) (f₀ :: rest)).fileResults = [] ∧
    (processAllFiles env (some t) (f₀ :: rest)).outputs = [] ∧
    (processAllFiles env (some t) (f₀ :: rest)).summaryWritten = false ∧
    (discoverCounties (pythonMaxBy PFile.size f₀ rest) ≠ [] →
      (processAllFiles env (some t) (f₀ :: rest)).reportedAvailable
        = some (sortKeys (discoverCounties (pythonMaxBy PFile.size f₀ rest)))) := by
  have hval : validateTargetCounty (some t)
      (discoverCounties (pythonMaxBy PFile.size f₀ rest)) = false := by
    simp [validateTargetCounty, targetTruthy, ht, hmem]
  by_cases hemp : (discoverCounties (pythonMaxBy PFile.size f₀ rest)).isEmpty
  · have hnil : discoverCounties (pythonMaxBy PFile.size f₀ rest) = [] := by
      simpa [List.isEmpty_iff] using hemp
    refine ⟨?_, ?_, ?_, ?_⟩ <;>
      simp [processAllFiles, hemp, hnil]
  · refine ⟨?_, ?_, ?_, ?_⟩ <;>
      simp [processAllFiles, hemp, hval, hmem]

/-- Concrete witness for the amended C3. -/
theorem c3_invalid_target_aborts_run_witness :
    (processAllFiles envOK (some "Z") [wFileX]).summaryWritten = false ∧
      (processAllFiles envOK (some "Z") [wFileX]).reportedAvailable
        = some (sortKeys (discoverCounties (pythonMaxBy PFile.size wFileX []))) := by
  have h := c3_invalid_target_aborts_run envOK "Z" wFileX [] (by decide)
    (by decide)
  exact ⟨h.2.2.1, h.2.2.2 (by decide)⟩

/-! ## C4 and C5: identifier resolution and column split -/

theorem head?_filter_eq_find? {α : Type} (p : α → Bool) (l : List α) :
    (l.filter p).head? = l.find? p := by
  induction l with
  | nil => rfl
  | cons x xs ih =>
    by_cases h : p x
    · simp [List.filter_cons, h, List.find?_cons_of_pos]
    · have h' : p x = false := by simpa using h
      simp [List.filter_cons, h', List.find?_cons_of_neg, ih]

/-- The resolved identifier is one of the frame's columns. -/
theorem resolveIdColumn_mem {cols : List String} {i : String}
    (h : resolveIdColumn cols = some i) : i ∈ cols := by
  unfold resolveIdColumn at h
  by_cases hc : cols.contains "PARCEL_LID"
  · rw [if_pos hc] at h
    cases h
    exact contains_iff_mem'.1 hc
  · rw [if_neg hc] at h
    have := List.mem_of_mem_head? (l := cols.filter hasIdLid) (by rw [h]; rfl)
    exact (List.mem_filter.1 this).1

/-- The resolved identifier is never the geometry column itself. -/
theorem resolveIdColumn_ne_geometry {cols : List String} {i : String}
    (h : resolveIdColumn cols = some i) : i ≠ "geometry" := by
  unfold resolveIdColumn at h
  by_cases hc : cols.contains "PARCEL_LID"
  · rw [if_pos hc] at h
    cases h
    decide
  · rw [if_neg hc] at h
    have hmem := List.mem_of_mem_head? (l := cols.filter hasIdLid)
      (by rw [h]; rfl)
    have hp : hasIdLid i = true := (List.mem_filter.1 hmem).2
    intro hgeom
    rw [hgeom] at hp
    exact absurd hp (by decide)

/-- C4: for every geometry/attribute pair produced by the hybrid splitter,
the attribute file never contains the geometry column, the geometry file's
columns are exactly [identifier, geometry] when an identifier resolves and
exactly [geometry] otherwise, and any column shared by the two files is the
resolved identifier.  The pure-DuckDB splitter, whenever it completes a
pair, produces geometry columns [PARCEL_LID, geometry], a geometry-free
attribute file, and shares at most PARCEL_LID. -/
theorem c4_column_disjointness (gdf : GDF) (cS fS : String) (env : Env)
    (f : PFile) (c : String) (n : Nat) :
    (∀ g a, createGeometryAndAttributes gdf cS fS = [g, a] →
      ("geometry" ∈ a.columns → False) ∧
      (∀ i, resolveIdColumn gdf.columns = some i →
        g.columns = [i, "geometry"]) ∧
      (resolveIdColumn gdf.columns = none → g.columns = ["geometry"]) ∧
      (∀ x, x ∈ g.columns → x ∈ a.columns →
        resolveIdColumn gdf.columns = some x)) ∧
    (∀ g a, (createGeometryAndAttributesNative env f c).1 = StepResult.ok n →
      (createGeometryAndAttributesNative env f c).2 = [g, a] →
      g.columns = ["PARCEL_LID", "geometry"] ∧
      ("geometry" ∈ a.columns → False) ∧
      (∀ x, x ∈ g.columns → x ∈ a.columns → x = "PARCEL_LID")) := by
  constructor
  · intro g a heq
    have hg : g = ⟨cS ++ "/" ++ cS ++ "_" ++ fS ++ "_geometry.parquet",
        geometryFileColumns gdf.columns, gdf.rows.length⟩ := by
      simpa [createGeometryAndAttributes] using
        congrArg (fun l => l.head?) heq.symm
    have ha : a = ⟨cS ++ "/" ++ cS ++ "_" ++ fS ++ "_attributes.parquet",
        gdf.columns.filter (fun x => x ≠ "geometry"), gdf.rows.length⟩ := by
      simpa [createGeometryAndAttributes] using
        congrArg (fun l => l.getLast?) heq.symm
    subst hg ha
    refine ⟨?_, ?_, ?_, ?_⟩
    · intro hmem
      have := (List.mem_filter.1 hmem).2
      simp at this
    · intro i hi
      simp [geometryFileColumns, hi]
    · intro hi
      simp [geometryFileColumns, hi]
    · intro x hxg hxa
      cases hres : resolveIdColumn gdf.columns with
      | none =>
        rw [geometryFileColumns, hres] at hxg
        have hx : x = "geometry" := by simpa using hxg
        have := (List.mem_filter.1 hxa).2
        rw [hx] at this
        simp at this
      | some i =>
        rw [geometryFileColumns, hres] at hxg
        have hx : x = i ∨ x = "geometry" := by simpa using hxg
        cases hx with
        | inl hxi => rw [hxi]
        | inr hxgeom =>
          have := (List.mem_filter.1 hxa).2
          rw [hxgeom] at this
          simp at this
  · intro g a hok hout
    by_cases hPm : "PARCEL_LID" ∈ f.columns
    · by_cases hGm : "geometry" ∈ f.columns
      · by_cases hw1 : env.writeFails (countySafe c ++ "/" ++ countySafe c ++
            "_" ++ f.stem ++ "_geometry.parquet") = true
        · simp [createGeometryAndAttributesNative, hPm, hGm, hw1] at hok
        · by_cases hd : env.describeFails f.name = true
          · simp [createGeometryAndAttributesNative, hPm, hGm, hw1,
              describeQuery, hd] at hok
          · by_cases hw2 : env.writeFails (countySafe c ++ "/" ++
                countySafe c ++ "_" ++ f.stem ++ "_attributes.parquet") = true
            · simp [createGeometryAndAttributesNative, hPm, hGm, hw1,
                describeQuery, hd, hw2] at hok
            · simp only [createGeometryAndAttributesNative, describeQuery]
                at hout
              simp [hPm, hGm, hw1, hd, hw2] at hout
              obtain ⟨hg, ha⟩ := hout
              refine ⟨?_, ?_, ?_⟩
              · rw [← hg]
              · intro hmem
                rw [← ha] at hmem
                have := (List.mem_filter.1 hmem).2
                simp at this
              · intro x hxg hxa
                rw [← hg] at hxg
                rw [← ha] at hxa
                have hx : x = "PARCEL_LID" ∨ x = "geometry" := by
                  simpa using hxg
                cases hx with
                | inl h => exact h
                | inr h =>
                  have := (List.mem_filter.1 hxa).2
                  rw [h] at this
                  simp at this
      · simp [createGeometryAndAttributesNative, hGm] at hok
    · simp [createGeometryAndAttributesNative, hPm] at hok

/-- Concrete witness for C4. -/
theorem c4_column_disjointness_witness :
    ("geometry" ∈
        (⟨"C/C_A_attributes.parquet", ["COUNTY", "PARCEL_LID"], 1⟩ :
          OutFile).columns → False) ∧
      (⟨"C/C_A_geometry.parquet", ["PARCEL_LID", "geometry"], 1⟩ :
          OutFile).columns = ["PARCEL_LID", "geometry"] := by
  have h := (c4_column_disjointness
      ⟨["COUNTY", "PARCEL_LID", "geometry"],
       [⟨some "Clackamas", true, [], ["p"]⟩], false⟩
      "C" "A" envOK wFileMain "Clackamas" 1).1
    ⟨"C/C_A_geometry.parquet", ["PARCEL_LID", "geometry"], 1⟩
    ⟨"C/C_A_attributes.parquet", ["COUNTY", "PARCEL_LID"], 1⟩ (by decide)
  exact ⟨h.1, h.2.1 "PARCEL_LID" (by decide)⟩

/-- C5 counterexample: on a main-file subset with geometry, no
`PARCEL_LID`, and an id-like column `TAXID`, the hybrid splitter resolves
`TAXID`, but the pure-DuckDB splitter performs no such resolution — its
hardcoded `SELECT PARCEL_LID, geometry` raises a binder error and the pair
fails instead of succeeding with a fallback identifier. -/
theorem c5_counterexample :
    resolveIdColumn wFileNoLid.columns = some "TAXID" ∧
      createGeometryAndAttributesNative envOK wFileNoLid "Clackamas"
        = (StepResult.raised, []) := by
  decide

/-- C5 (amended): the hybrid splitter resolves the identifier exactly as
claimed — `PARCEL_LID` when present, else the first column (in column
order) whose lowercased name contains "id" or "lid", else a geometry-only
output while the split still succeeds.  The pure-DuckDB splitter performs
no resolution: it always selects `PARCEL_LID` and the pair fails when that
column is absent. -/
theorem c5_identifier_resolution (cols : List String) (gdf : GDF)
    (cS fS : String) (env : Env) (f : PFile) (c : String) :
    ("PARCEL_LID" ∈ cols → resolveIdColumn cols = some "PARCEL_LID") ∧
    ("PARCEL_LID" ∉ cols → resolveIdColumn cols = cols.find? hasIdLid) ∧
    (resolveIdColumn gdf.columns = none →
      (createGeometryAndAttributes gdf cS fS).map OutFile.columns
        = [["geometry"], gdf.columns.filter (fun x => x ≠ "geometry")]) ∧
    (f.columns.contains "PARCEL_LID" = false →
      (createGeometryAndAttributesNative env f c).1 = StepResult.raised) := by
  refine ⟨?_, ?_, ?_, ?_⟩
  · intro h
    unfold resolveIdColumn
    rw [if_pos (contains_iff_mem'.2 h)]
  · intro h
    have hc : ¬(cols.contains "PARCEL_LID" = true) := by
      intro hcc
      exact absurd (contains_iff_mem'.1 hcc) h
    unfold resolveIdColumn
    rw [if_neg hc]
    exact head?_filter_eq_find? hasIdLid cols
  · intro h
    simp [createGeometryAndAttributes, geometryFileColumns, h]
  · intro h
    have hPnot : "PARCEL_LID" ∉ f.columns := by simpa using h
    simp [createGeometryAndAttributesNative, hPnot]

/-- Concrete witness for the amended C5. -/
theorem c5_identifier_resolution_witness :
    resolveIdColumn ["COUNTY", "PARCEL_LID", "geometry"]
        = some "PARCEL_LID" ∧
      resolveIdColumn ["COUNTY", "TAXID", "geometry"]
        = ["COUNTY", "TAXID", "geometry"].find? hasIdLid ∧
      (createGeometryAndAttributesNative envOK wFileNoLid "Washington").1
        = StepResult.raised := by
  have h := c5_identifier_resolution ["COUNTY", "PARCEL_LID", "geometry"]
    ⟨["COUNTY"], [], false⟩ "C" "A" envOK wFileNoLid "Washington"
  have h2 := c5_identifier_resolution ["COUNTY", "TAXID", "geometry"]
    ⟨["COUNTY"], [], false⟩ "C" "A" envOK wFileNoLid "Washington"
  exact ⟨h.1 (by decide), h2.2.1 (by decide), h.2.2.2 (by decide)⟩

/-! ## C6: per-file partition count sums -/

/-- The count a step result contributes to the per-file results mapping. -/
def stepCount : StepResult → Nat
  | StepResult.ok n => n
  | StepResult.skipped => 0
  | StepResult.raised => 0

/-- The recorded counts of a county loop sum to the per-county step
counts. -/
theorem runCounties_sum (body : String → StepResult × List OutFile) :
    ∀ ks : List String,
      ((runCounties body ks).1.map Prod.snd).sum
        = (ks.map (fun c => stepCount (body c).1)).sum := by
  intro ks
  induction ks with
  | nil => rfl
  | cons c rest ih =>
    cases hc : (body c).1 <;> simp [runCounties, hc, ih, stepCount]

/-- An unpinned extraction only skips on an empty subset. -/
theorem extractUnpinned_none (f : PFile) (c : String)
    (h : extractUnpinned f c = none) : (rowsForCounty f c).length = 0 := by
  by_cases hlen : (rowsForCounty f c).length = 0
  · exact hlen
  · simp [extractUnpinned, pathA, hlen] at h

/-- A pinned extraction only skips on an empty subset. -/
theorem extractPinned_none (f : PFile) (c : String)
    (h : extractPinned f c = none) : (rowsForCounty f c).length = 0 := by
  by_cases hlen : (rowsForCounty f c).length = 0
  · exact hlen
  · exfalso
    by_cases h1 : "geometry" ∈ f.columns <;>
      by_cases h2 : f.engineRawGeom = true <;>
      simp [extractPinned, pathA, pathB, hlen, h1, h2] at h

/-- A successful unpinned extraction returns the county's row subset. -/
theorem extractUnpinned_rows (f : PFile) (c : String) (gdf : GDF)
    (h : extractUnpinned f c = some gdf) :
    gdf.rows = rowsForCounty f c := by
  by_cases hlen : (rowsForCounty f c).length = 0
  · simp [extractUnpinned, pathA, hlen] at h
  · simp [extractUnpinned, pathA, hlen] at h
    rw [← h]

/-- A successful pinned extraction returns the county's row subset. -/
theorem extractPinned_rows (f : PFile) (c : String) (gdf : GDF)
    (h : extractPinned f c = some gdf) :
    gdf.rows = rowsForCounty f c := by
  by_cases hlen : (rowsForCounty f c).length = 0
  · simp [extractPinned, pathA, pathB, hlen] at h
  · by_cases h1 : "geometry" ∈ f.columns <;>
      by_cases h2 : f.engineRawGeom = true <;>
      (simp [extractPinned, pathA, pathB, hlen, h1, h2] at h; rw [← h])

/-- With no write failures, every per-county step of the hybrid script
records exactly the size of the county's row subset. -/
theorem countyStepByCounty_count (env : Env) (f : PFile)
    (isMain pinned : Bool) (c : String)
    (hw : ∀ p, env.writeFails p = false) :
    stepCount (countyStepByCounty env f isMain pinned c).1
      = (rowsForCounty f c).length := by
  unfold countyStepByCounty
  cases hextract : (if pinned then extractPinned f c else extractUnpinned f c)
    with
  | none =>
    have hempty : (rowsForCounty f c).length = 0 := by
      cases pinned with
      | false => exact extractUnpinned_none f c (by simpa using hextract)
      | true => exact extractPinned_none f c (by simpa using hextract)
    simp [stepCount, hempty]
  | some gdf =>
    have hrows : gdf.rows = rowsForCounty f c := by
      cases pinned with
      | false => exact extractUnpinned_rows f c gdf (by simpa using hextract)
      | true => exact extractPinned_rows f c gdf (by simpa using hextract)
    simp [writeAll_ok env hw, stepCount, hrows]

/-- Inserting into a sorted list is a permutation of consing. -/
theorem insertSorted_perm (x : String) (l : List String) :
    List.Perm (insertSorted x l) (x :: l) := by
  induction l with
  | nil => exact List.Perm.refl _
  | cons y ys ih =>
    by_cases h : strLe x y
    · simp [insertSorted, h]
    · simp only [insertSorted, if_neg h]
      exact (ih.cons y).trans (List.Perm.swap x y ys)

/-- Sorting the key list permutes it. -/
theorem sortKeys_perm (l : List String) : List.Perm (sortKeys l) l := by
  induction l with
  | nil => exact List.Perm.refl _
  | cons x xs ih => exact (insertSorted_perm x (sortKeys xs)).trans (ih.cons x)

/-- Filter lengths over disjoint predicates add to the length of the
filter over their disjunction. -/
theorem length_filter_disjoint {α : Type} (p q : α → Bool) (l : List α)
    (h : ∀ x, ¬(p x = true ∧ q x = true)) :
    (l.filter p).length + (l.filter q).length
      = (l.filter (fun x => p x || q x)).length := by
  induction l with
  | nil => rfl
  | cons a t ih =>
    cases hp : p a with
    | true =>
      have hq : q a = false := by
        cases hqa : q a
        · rfl
        · exact absurd ⟨hp, hqa⟩ (h a)
      simp [List.filter_cons, hp, hq]
      omega
    | false =>
      cases hq : q a <;> simp [List.filter_cons, hp, hq] <;> omega

/-- Complementary filter lengths add to the list length. -/
theorem length_filter_not_add {α : Type} (q : α → Bool) (l : List α) :
    (l.filter q).length + (l.filter (fun x => !(q x))).length = l.length := by
  induction l with
  | nil => rfl
  | cons a t ih => cases hq : q a <;> simp [List.filter_cons, hq] <;> omega

/-- Whether a row's county is a member of the key list. -/
def countyMem (ks : List String) (r : Row) : Bool :=
  match r.county with
  | some v => ks.contains v
  | none => false

/-- Over a duplicate-free key list, per-key subset sizes sum to the number
of rows whose county is among the keys. -/
theorem sum_counts_eq_filter_mem (rows : List Row) :
    ∀ ks : List String, ks.Nodup →
      (ks.map (fun k =>
          (rows.filter (fun r => r.county == some k)).length)).sum
        = (rows.filter (countyMem ks)).length := by
  intro ks
  induction ks with
  | nil =>
    intro _
    have hnil : rows.filter (countyMem []) = [] := by
      apply List.filter_eq_nil_iff.2
      intro r _
      cases hc : r.county <;> simp [countyMem, hc]
    simp [hnil]
  | cons k t ih =>
    intro hnd
    have hknot : k ∉ t := (List.nodup_cons.1 hnd).1
    have hdis : ∀ r : Row,
        ¬((r.county == some k) = true ∧ countyMem t r = true) := by
      intro r hcontra
      obtain ⟨h1, h2⟩ := hcontra
      cases hc : r.county with
      | none => rw [hc] at h1; simp at h1
      | some v =>
        rw [hc] at h1
        rw [countyMem, hc] at h2
        have hvk : v = k := by simpa using h1
        have hvt : v ∈ t := by simpa using h2
        rw [hvk] at hvt
        exact hknot hvt
    have hpoint : ∀ r : Row,
        ((r.county == some k) || countyMem t r) = countyMem (k :: t) r := by
      intro r
      cases hc : r.county with
      | none => simp [countyMem, hc]
      | some v =>
        have hbeq : (some v == some k) = (v == k) := rfl
        simp only [countyMem, hc, hbeq]
        cases hvk : v == k with
        | true =>
          have hv : v = k := by simpa using hvk
          simp [hv]
        | false =>
          have hv : ¬(v = k) := by simpa using hvk
          simp [List.contains, List.elem_cons, hvk, hv]
    calc (((k :: t).map (fun k =>
            (rows.filter (fun r => r.county == some k)).length)).sum)
        = (rows.filter (fun r => r.county == some k)).length
            + (rows.filter (countyMem t)).length := by
          simp [ih (List.nodup_cons.1 hnd).2]
      _ = (rows.filter
            (fun r => (r.county == some k) || countyMem t r)).length := by
          exact length_filter_disjoint _ _ rows hdis
      _ = (rows.filter (countyMem (k :: t))).length := by
          congr 1
          exact List.filter_congr (fun r _ => hpoint r)

/-- C6 counterexample: an auxiliary file whose single row carries county
`Y`, a key the main file (whose discovered set is `{X}`) does not contain.
The per-key sums recorded for the auxiliary file total 0, but its total
row count minus its null-county rows is 1. -/
theorem c6_counterexample :
    ¬(((splitFileByCounty envOK wFileAux (discoverCounties wFileX) false
          none).1.map Prod.snd).sum
        = wFileAux.rows.length
            - (wFileAux.rows.filter (fun r => r.county == none)).length) := by
  decide

/-- C6 (amended): for every file f processed with no pinned key and no
write failures, if every non-null county value of f is contained in the
discovered key set, then the per-key row counts recorded for f sum to f's
total row count minus its null-county rows.  (The main file — the file the
keys are discovered from — always satisfies the containment premise.) -/
theorem c6_partition_sum (env : Env) (f g : PFile) (isMain : Bool)
    (hw : ∀ p, env.writeFails p = false)
    (hcov : ∀ r ∈ f.rows, ∀ v, r.county = some v →
      v ∈ discoverCounties g) :
    ((splitFileByCounty env f (discoverCounties g) isMain none).1.map
        Prod.snd).sum
      = f.rows.length
          - (f.rows.filter (fun r => r.county == none)).length := by
  have hstep : ∀ c : String,
      stepCount (countyStepByCounty env f isMain false c).1
        = (rowsForCounty f c).length :=
    fun c => countyStepByCounty_count env f isMain false c hw
  have h1 : ((splitFileByCounty env f (discoverCounties g) isMain none).1.map
        Prod.snd).sum
      = ((sortKeys (discoverCounties g)).map (fun c =>
          (rowsForCounty f c).length)).sum := by
    unfold splitFileByCounty
    rw [runCounties_sum]
    congr 1
    exact List.map_congr_left (fun c _ => hstep c)
  have h2 : ((sortKeys (discoverCounties g)).map (fun c =>
        (rowsForCounty f c).length)).sum
      = ((discoverCounties g).map (fun c =>
          (rowsForCounty f c).length)).sum :=
    ((sortKeys_perm (discoverCounties g)).map _).sum_eq
  have h3 : ((discoverCounties g).map (fun c =>
        (rowsForCounty f c).length)).sum
      = (f.rows.filter (countyMem (discoverCounties g))).length := by
    exact sum_counts_eq_filter_mem f.rows (discoverCounties g)
      (List.nodup_dedup _)
  have h4 : f.rows.filter (countyMem (discoverCounties g))
      = f.rows.filter (fun r => !(r.county == none)) := by
    apply List.filter_congr
    intro r hr
    cases hc : r.county with
    | none => simp [countyMem, hc]
    | some v =>
      have hv : v ∈ discoverCounties g := hcov r hr v hc
      simp [countyMem, hc, hv]
  have h5 := length_filter_not_add (fun r : Row => r.county == none) f.rows
  rw [h1, h2, h3, h4]
  omega

/-- Concrete witness for the amended C6. -/
theorem c6_partition_sum_witness :
    ((splitFileByCounty envOK wFileX (discoverCounties wFileX) true
        none).1.map Prod.snd).sum
      = wFileX.rows.length
          - (wFileX.rows.filter (fun r => r.county == none)).length := by
  exact c6_partition_sum envOK wFileX wFileX true (fun _ => rfl) (by decide)

/-! ## C7 and C9: discovery -/

/-- The discovered key set recorded by a run, for any target. -/
theorem processAllFiles_discovered (env : Env) (t : Option String)
    (f₀ : PFile) (rest : List PFile) :
    (processAllFiles env t (f₀ :: rest)).discovered
      = some (discoverCounties (pythonMaxBy PFile.size f₀ rest)) := by
  by_cases h1 : (discoverCounties (pythonMaxBy PFile.size f₀ rest)).isEmpty
  · simp [processAllFiles, h1]
  · by_cases h2 : validateTargetCounty t
        (discoverCounties (pythonMaxBy PFile.size f₀ rest)) = true
    · simp [processAllFiles, h1, h2]
    · have h2' : validateTargetCounty t
          (discoverCounties (pythonMaxBy PFile.size f₀ rest)) = false := by
        cases hv : validateTargetCounty t
            (discoverCounties (pythonMaxBy PFile.size f₀ rest))
        · rfl
        · exact absurd hv h2
      simp [processAllFiles, h1, h2']

/-- `max(files, key=size)` returns an element of the collection of maximal
key, keeping the first on ties, as Python does. -/
theorem pythonMaxBy_spec (key : PFile → Nat) :
    ∀ (l : List PFile) (cur : PFile),
      (pythonMaxBy key cur l = cur ∨ pythonMaxBy key cur l ∈ l) ∧
      key cur ≤ key (pythonMaxBy key cur l) ∧
      ∀ g ∈ l, key g ≤ key (pythonMaxBy key cur l) := by
  intro l
  induction l with
  | nil =>
    intro cur
    exact ⟨Or.inl rfl, le_refl _, by simp⟩
  | cons x xs ih =>
    intro cur
    by_cases h : key x > key cur
    · have hmax : pythonMaxBy key cur (x :: xs) = pythonMaxBy key x xs := by
        simp [pythonMaxBy, h]
      obtain ⟨hmem, hcur, hall⟩ := ih x
      refine ⟨?_, ?_, ?_⟩
      · rw [hmax]
        cases hmem with
        | inl he => exact Or.inr (by rw [he]; exact List.mem_cons_self x xs)
        | inr hm => exact Or.inr (List.mem_cons_of_mem x hm)
      · rw [hmax]
        exact le_trans (le_of_lt h) hcur
      · rw [hmax]
        intro g hg
        cases hg with
        | head => exact hcur
        | tail _ hm => exact hall g hm
    · have hmax : pythonMaxBy key cur (x :: xs) = pythonMaxBy key cur xs := by
        simp [pythonMaxBy, h]
      obtain ⟨hmem, hcur, hall⟩ := ih cur
      refine ⟨?_, ?_, ?_⟩
      · rw [hmax]
        cases hmem with
        | inl he => exact Or.inl he
        | inr hm => exact Or.inr (List.mem_cons_of_mem x hm)
      · rw [hmax]
        exact hcur
      · rw [hmax]
        intro g hg
        cases hg with
        | head => exact le_trans (le_of_not_lt h) hcur
        | tail _ hm => exact hall g hm

/-- C7: in every run, discovery happens against the file of maximal byte
size — a member of the input list that Python's `max` selects — and the
discovered key set recorded by the run is exactly the set of distinct
non-null `COUNTY` values of that file (duplicate-free, membership-only,
no order guarantee). -/
theorem c7_discovery_on_largest_file (env : Env) (target : Option String)
    (f₀ : PFile) (rest : List PFile) :
    ((processAllFiles env target (f₀ :: rest)).discovered
        = some (discoverCounties (pythonMaxBy PFile.size f₀ rest))) ∧
    (∀ x, x ∈ discoverCounties (pythonMaxBy PFile.size f₀ rest)
        ↔ some x ∈ (pythonMaxBy PFile.size f₀ rest).rows.map Row.county) ∧
    (discoverCounties (pythonMaxBy PFile.size f₀ rest)).Nodup ∧
    (pythonMaxBy PFile.size f₀ rest = f₀ ∨
      pythonMaxBy PFile.size f₀ rest ∈ rest) ∧
    (f₀.size ≤ (pythonMaxBy PFile.size f₀ rest).size ∧
      ∀ g ∈ rest, g.size ≤ (pythonMaxBy PFile.size f₀ rest).size) := by
  obtain ⟨hmem, hcur, hall⟩ := pythonMaxBy_spec PFile.size rest f₀
  refine ⟨processAllFiles_discovered env target f₀ rest, ?_, ?_, hmem,
    hcur, hall⟩
  · intro x
    simp [discoverCounties, List.mem_dedup, List.mem_filterMap, List.mem_map]
  · exact List.nodup_dedup _

/-- Concrete witness for C7. -/
theorem c7_discovery_on_largest_file_witness :
    (processAllFiles envOK none [wFileX, wFileAux]).discovered
        = some (discoverCounties (pythonMaxBy PFile.size wFileX [wFileAux])) ∧
      ("X" ∈ discoverCounties (pythonMaxBy PFile.size wFileX [wFileAux])
        ↔ some "X" ∈ (pythonMaxBy PFile.size wFileX [wFileAux]).rows.map
            Row.county) := by
  have h := c7_discovery_on_largest_file envOK none wFileX [wFileAux]
  exact ⟨h.1, h.2.1 "X"⟩

/-- C9: two runs differing only in the pinned target county (including
pinned versus not pinned) discover the same partition-key set: discovery
never reads the target-county configuration. -/
theorem c9_discovery_independent_of_target (env : Env)
    (t₁ t₂ : Option String) (files : List PFile) :
    (processAllFiles env t₁ files).discovered
      = (processAllFiles env t₂ files).discovered := by
  cases files with
  | nil => rfl
  | cons f₀ rest =>
    rw [processAllFiles_discovered env t₁ f₀ rest,
      processAllFiles_discovered env t₂ f₀ rest]

/-! ## C8: per-pair errors absorbed -/

/-- A raised step in the middle of the county loop records a zero count
for its county and leaves the processing of every other county intact. -/
theorem runCounties_raised_mid (body : String → StepResult × List OutFile)
    (c : String) (hc : (body c).1 = StepResult.raised) :
    ∀ cs₁ cs₂ : List String,
      (runCounties body (cs₁ ++ c :: cs₂)).1
        = (runCounties body cs₁).1
          ++ (c, 0) :: (runCounties body cs₂).1 := by
  intro cs₁
  induction cs₁ with
  | nil =>
    intro cs₂
    simp [runCounties, hc]
  | cons d ds ih =>
    intro cs₂
    cases hd : (body d).1 <;> simp [runCounties, hd, ih cs₂]

/-- C8: in both scripts, when the per-(file, county) body raises (for any
reason — the Path B encoding mismatch is not an exception but an internal
branch), the county is recorded with count 0 in the results mapping and
the loop continues with every remaining county. -/
theorem c8_per_pair_errors_absorbed (env : Env) (f : PFile)
    (isMain pinned : Bool) (c : String) (cs₁ cs₂ : List String) :
    ((countyStepByCounty env f isMain pinned c).1 = StepResult.raised →
      (runCounties (countyStepByCounty env f isMain pinned)
          (cs₁ ++ c :: cs₂)).1
        = (runCounties (countyStepByCounty env f isMain pinned) cs₁).1
          ++ (c, 0)
            :: (runCounties (countyStepByCounty env f isMain pinned) cs₂).1) ∧
    ((countyStepModern env f isMain c).1 = StepResult.raised →
      (runCounties (countyStepModern env f isMain) (cs₁ ++ c :: cs₂)).1
        = (runCounties (countyStepModern env f isMain) cs₁).1
          ++ (c, 0) :: (runCounties (countyStepModern env f isMain) cs₂).1) :=
  ⟨fun h => runCounties_raised_mid _ c h cs₁ cs₂,
   fun h => runCounties_raised_mid _ c h cs₁ cs₂⟩

/-- Concrete witness for C8: with every write failing, the step for key
`X` raises and is recorded as 0 between its neighbours. -/
theorem c8_per_pair_errors_absorbed_witness :
    (runCounties (countyStepByCounty envBad wFileX true false)
        (["A"] ++ "X" :: ["Y"])).1
      = (runCounties (countyStepByCounty envBad wFileX true false) ["A"]).1
        ++ ("X", 0)
          :: (runCounties (countyStepByCounty envBad wFileX true false)
              ["Y"]).1 :=
  (c8_per_pair_errors_absorbed envBad wFileX true false "X" ["A"] ["Y"]).1
    (by decide)

/-! ## C10: geometry check totality -/

/-- C10: `_check_geometry_column` always returns a boolean: when the
underlying schema query fails it returns `false`, otherwise it reports
whether the geometry column exists; and whenever it returns `false`, the
modern per-county step takes the attributes-only branch instead of
aborting the pair. -/
theorem c10_check_geometry_total (env : Env) (f : PFile) (isMain : Bool)
    (c : String) :
    (env.describeFails f.name = true → checkGeometryColumn env f = false) ∧
    (env.describeFails f.name = false →
      checkGeometryColumn env f = f.columns.contains "geometry") ∧
    (checkGeometryColumn env f = false →
      countyStepModern env f isMain c = saveAttributesOnlyNative env f c) := by
  refine ⟨?_, ?_, ?_⟩
  · intro h
    simp [checkGeometryColumn, describeQuery, h]
  · intro h
    simp [checkGeometryColumn, describeQuery, h]
  · intro h
    simp [countyStepModern, h]

/-- Concrete witness for C10. -/
theorem c10_check_geometry_total_witness :
    checkGeometryColumn envD wFileMain = false ∧
      countyStepModern envD wFileMain true "Clackamas"
        = saveAttributesOnlyNative envD wFileMain "Clackamas" := by
  have h := c10_check_geometry_total envD wFileMain true "Clackamas"
  exact ⟨h.1 rfl, h.2.2 (h.1 rfl)⟩

end Parcelpy
